import Mathlib

/-!
Verification of the GNews MCP server (`src/gnews_mcp_server.py`).

The server is a thin adapter: each MCP tool validates a few string
parameters, constructs a fresh `GNews` client from its own arguments,
invokes one retrieval method of that client, and serialises the outcome
as a JSON envelope (`json.dumps` of a Python dict).  We embed each tool
as a pure Lean function over an abstract collaborator:

* `GNewsArgs` records exactly the keyword arguments the tool passes to
  the `GNews(...)` constructor (a `none` field means the keyword was not
  passed, so the library default applies);
* `Collaborator.run` models the retrieval call: it returns either the
  raw article list or the string representation of the raised exception
  (Python `str(e)`);
* each tool returns the envelope it serialises, paired with the list of
  collaborator invocations it performed, in order, so that theorems can
  speak about whether and how the collaborator was invoked;
* `json.dumps` of a dict is modelled as the association list of its
  fields in insertion order (serialisation itself cannot fail on these
  inputs and is injective on them);
* Python `str.upper` is modelled by `pyUpper` (ASCII case mapping),
  `str.strip` by `pyStrip` (stripping Python's whitespace characters),
  and `str.split(",")` by `pySplit`, which has Python's
  keep-empty-pieces semantics; all three recurse structurally over the
  string's character list so concrete instances evaluate by `decide`.
-/

namespace GNewsMCP

/-- An article record returned by the collaborator.  The adapter never
inspects article fields; it only serialises the list it receives, so
the fields follow the data model (all strings, possibly empty). -/
structure Article where
  title : String
  description : String
  url : String
  publisher_name : String
  published_date : String
deriving DecidableEq, Repr

/-- A JSON value occurring in the envelopes the server builds: a string
field, an article array (the `results` field), or a code-to-name table
(the `countries` / `languages` fields). -/
inductive JVal where
  | s (v : String)
  | arr (v : List Article)
  | table (v : List (String × String))
deriving DecidableEq, Repr

/-- A serialised envelope: the fields of the Python dict passed to
`json.dumps`, in insertion order. -/
abbrev Envelope := List (String × JVal)

/-- The keyword arguments a tool passes to the `GNews(...)` constructor.
`none` means the keyword argument is not passed at that call site. -/
structure GNewsArgs where
  language : Option String
  country : Option String
  period : Option String
  max_results : Option Int
  exclude_websites : Option (List String)
deriving DecidableEq, Repr

/-- The retrieval method invoked on the constructed client. -/
inductive GNewsCall where
  | getNews (keyword : String)
  | getTopNews
  | getNewsByTopic (topic : String)
  | getNewsByLocation (location : String)
  | getNewsBySite (site : String)
deriving DecidableEq, Repr

/-- One collaborator invocation: the constructor configuration of the
client together with the retrieval method called on it. -/
abbrev Invocation := GNewsArgs × GNewsCall

/-- The external gnews library, abstractly.  `run` is the retrieval
call: `Except.error e` models the call raising an exception whose
`str` is `e`.  `availableCountries` / `availableLanguages` are the
library's class-level constant tables (`GNews.AVAILABLE_COUNTRIES`,
`GNews.AVAILABLE_LANGUAGES`); accessing them does not raise. -/
structure Collaborator where
  run : GNewsArgs → GNewsCall → Except String (List Article)
  availableCountries : List (String × String)
  availableLanguages : List (String × String)

/-- Python `str.upper()` on one character (ASCII case mapping; the
adapter only upper-cases candidate topic names). -/
def pyUpperChar (c : Char) : Char :=
  if 'a' ≤ c ∧ c ≤ 'z' then Char.ofNat (c.toNat - 32) else c

/-- Python `topic.upper()`. -/
def pyUpper (s : String) : String :=
  String.mk (s.data.map pyUpperChar)

/-- Python whitespace characters removed by `str.strip()` (ASCII part;
the adapter only ever strips pieces of a comma-separated site list). -/
def isPyWhitespace (c : Char) : Bool :=
  c == ' ' || c == '\t' || c == '\n' || c == '\r' || c == '\x0b' || c == '\x0c'

/-- Python `s.strip()`: remove leading and trailing whitespace. -/
def pyStrip (s : String) : String :=
  String.mk (((s.data.dropWhile isPyWhitespace).reverse.dropWhile isPyWhitespace).reverse)

/-- Splitting a character list at every comma, keeping empty pieces;
`acc` holds the (reversed) current piece. -/
def pySplitAux : List Char → List Char → List (List Char)
  | [], acc => [acc.reverse]
  | c :: rest, acc =>
    if c = ',' then acc.reverse :: pySplitAux rest []
    else pySplitAux rest (c :: acc)

/-- Python `s.split(",")`: split at every comma, keeping empty pieces
(`"".split(",") == [""]`). -/
def pySplit (s : String) : List String :=
  (pySplitAux s.data []).map String.mk

/-- Line 54: `[x.strip() for x in exclude_websites.split(",") if x.strip()]
if exclude_websites else []`. -/
def parseExcludeWebsites (exclude_websites : String) : List String :=
  if exclude_websites = "" then []
  else ((pySplit exclude_websites).filter (fun x => pyStrip x != "")).map pyStrip

/-- The error envelope `{"status": "error", "message": m}` produced by
every `except` clause (and by the invalid-topic branch). -/
def errEnv (m : String) : Envelope :=
  [("status", JVal.s "error"), ("message", JVal.s m)]

/-- Lines 29-68: `search_news`.  Parses the exclusion list, constructs
`GNews(language=..., country=..., period=..., max_results=...,
exclude_websites=...)`, calls `get_news(keyword)` and wraps the outcome. -/
def search_news (g : Collaborator) (keyword language country period : String)
    (max_results : Int) (exclude_websites : String) : Envelope × List Invocation :=
  let exclude_list := parseExcludeWebsites exclude_websites
  let args : GNewsArgs :=
    ⟨some language, some country, some period, some max_results, some exclude_list⟩
  match g.run args (GNewsCall.getNews keyword) with
  | Except.ok news =>
      ([("status", JVal.s "success"), ("keyword", JVal.s keyword),
        ("results", JVal.arr news)],
       [(args, GNewsCall.getNews keyword)])
  | Except.error e => (errEnv e, [(args, GNewsCall.getNews keyword)])

/-- Lines 71-100: `get_top_news`.  Constructs `GNews(language=...,
country=..., max_results=...)` and calls `get_top_news()`. -/
def get_top_news (g : Collaborator) (language country : String)
    (max_results : Int) : Envelope × List Invocation :=
  let args : GNewsArgs := ⟨some language, some country, none, some max_results, none⟩
  match g.run args GNewsCall.getTopNews with
  | Except.ok news =>
      ([("status", JVal.s "success"), ("type", JVal.s "top_news"),
        ("results", JVal.arr news)],
       [(args, GNewsCall.getTopNews)])
  | Except.error e => (errEnv e, [(args, GNewsCall.getTopNews)])

/-- Line 124: the `valid_topics` list. -/
def validTopics : List String :=
  ["WORLD", "NATION", "BUSINESS", "TECHNOLOGY", "ENTERTAINMENT",
   "SPORTS", "SCIENCE", "HEALTH", "POLITICS", "CELEBRITIES"]

/-- Line 131: the invalid-topic message (note the double space after
the period, as in the f-string). -/
def invalidTopicMessage : String :=
  "Invalid topic.  Valid topics are: " ++ String.intercalate ", " validTopics

/-- Lines 103-144: `get_news_by_topic`.  Upper-cases the topic, rejects
it if not in `valid_topics` (without constructing a client), otherwise
constructs `GNews(language=..., country=..., max_results=...)` and calls
`get_news_by_topic(topic_upper)`.  The success envelope echoes
`topic_upper`, not the original topic. -/
def get_news_by_topic (g : Collaborator) (topic language country : String)
    (max_results : Int) : Envelope × List Invocation :=
  let topic_upper := pyUpper topic
  if topic_upper ∈ validTopics then
    let args : GNewsArgs := ⟨some language, some country, none, some max_results, none⟩
    match g.run args (GNewsCall.getNewsByTopic topic_upper) with
    | Except.ok news =>
        ([("status", JVal.s "success"), ("topic", JVal.s topic_upper),
          ("results", JVal.arr news)],
         [(args, GNewsCall.getNewsByTopic topic_upper)])
    | Except.error e => (errEnv e, [(args, GNewsCall.getNewsByTopic topic_upper)])
  else
    (errEnv invalidTopicMessage, [])

/-- Lines 147-178: `get_news_by_location`.  Constructs
`GNews(language=..., country=..., max_results=...)` and calls
`get_news_by_location(location)`. -/
def get_news_by_location (g : Collaborator) (location language country : String)
    (max_results : Int) : Envelope × List Invocation :=
  let args : GNewsArgs := ⟨some language, some country, none, some max_results, none⟩
  match g.run args (GNewsCall.getNewsByLocation location) with
  | Except.ok news =>
      ([("status", JVal.s "success"), ("location", JVal.s location),
        ("results", JVal.arr news)],
       [(args, GNewsCall.getNewsByLocation location)])
  | Except.error e => (errEnv e, [(args, GNewsCall.getNewsByLocation location)])

/-- Lines 181-212: `get_news_by_site`.  Constructs `GNews(language=...,
country=..., max_results=...)` and calls `get_news_by_site(site)`. -/
def get_news_by_site (g : Collaborator) (site language country : String)
    (max_results : Int) : Envelope × List Invocation :=
  let args : GNewsArgs := ⟨some language, some country, none, some max_results, none⟩
  match g.run args (GNewsCall.getNewsBySite site) with
  | Except.ok news =>
      ([("status", JVal.s "success"), ("site", JVal.s site),
        ("results", JVal.arr news)],
       [(args, GNewsCall.getNewsBySite site)])
  | Except.error e => (errEnv e, [(args, GNewsCall.getNewsBySite site)])

/-- Lines 215-230: `get_available_countries`.  Constructs `GNews()` and
reads the class-level constant `AVAILABLE_COUNTRIES`; no retrieval
method is invoked and nothing in the `try` body can raise. -/
def get_available_countries (g : Collaborator) : Envelope × List Invocation :=
  ([("status", JVal.s "success"), ("countries", JVal.table g.availableCountries)], [])

/-- Lines 233-248: `get_available_languages`.  Constructs `GNews()` and
reads the class-level constant `AVAILABLE_LANGUAGES`. -/
def get_available_languages (g : Collaborator) : Envelope × List Invocation :=
  ([("status", JVal.s "success"), ("languages", JVal.table g.availableLanguages)], [])

/-- A test collaborator whose retrieval calls all succeed with an empty
article list and whose tables are the singleton entries used in the
witnesses. -/
def gOk : Collaborator :=
  ⟨fun _ _ => Except.ok [], [("United States", "US")], [("english", "en")]⟩

/-- A test collaborator whose retrieval calls all raise with message
`"boom"`. -/
def gFail : Collaborator :=
  ⟨fun _ _ => Except.error "boom", [("United States", "US")], [("english", "en")]⟩

/-- A test collaborator whose retrieval calls all raise an exception
with an empty string representation (Python `str(Exception()) == ""`). -/
def gFailEmpty : Collaborator :=
  ⟨fun _ _ => Except.error "", [("United States", "US")], [("english", "en")]⟩

/-! ## Helper lemmas: invocation traces of the five retrieval tools -/

theorem search_news_trace (g : Collaborator) (keyword language country period : String)
    (max_results : Int) (exclude_websites : String) :
    (search_news g keyword language country period max_results exclude_websites).2 =
      [(⟨some language, some country, some period, some max_results,
        some (parseExcludeWebsites exclude_websites)⟩, GNewsCall.getNews keyword)] := by
  simp only [search_news]
  split <;> rfl

theorem get_top_news_trace (g : Collaborator) (language country : String)
    (max_results : Int) :
    (get_top_news g language country max_results).2 =
      [(⟨some language, some country, none, some max_results, none⟩,
        GNewsCall.getTopNews)] := by
  simp only [get_top_news]
  split <;> rfl

theorem get_news_by_topic_trace_valid (g : Collaborator) (topic language country : String)
    (max_results : Int) (h : pyUpper topic ∈ validTopics) :
    (get_news_by_topic g topic language country max_results).2 =
      [(⟨some language, some country, none, some max_results, none⟩,
        GNewsCall.getNewsByTopic (pyUpper topic))] := by
  simp only [get_news_by_topic, if_pos h]
  split <;> rfl

theorem get_news_by_topic_invalid (g : Collaborator) (topic language country : String)
    (max_results : Int) (h : pyUpper topic ∉ validTopics) :
    get_news_by_topic g topic language country max_results =
      (errEnv invalidTopicMessage, []) := by
  simp only [get_news_by_topic, if_neg h]

theorem get_news_by_location_trace (g : Collaborator) (location language country : String)
    (max_results : Int) :
    (get_news_by_location g location language country max_results).2 =
      [(⟨some language, some country, none, some max_results, none⟩,
        GNewsCall.getNewsByLocation location)] := by
  simp only [get_news_by_location]
  split <;> rfl

theorem get_news_by_site_trace (g : Collaborator) (site language country : String)
    (max_results : Int) :
    (get_news_by_site g site language country max_results).2 =
      [(⟨some language, some country, none, some max_results, none⟩,
        GNewsCall.getNewsBySite site)] := by
  simp only [get_news_by_site]
  split <;> rfl

/-! ## Claim theorems -/

/-- C1: `get_news_by_topic` returns the validation-error envelope
(status "error", message enumerating the valid topics) without invoking
the collaborator exactly when the upper-cased topic is outside the
fixed topic set; for a topic whose upper-casing is in the set the
collaborator is invoked (exactly once, with the upper-cased topic) and
the call never fails due to validation: whenever the collaborator
returns articles, a success envelope is produced. -/
theorem topic_validation_gate (g : Collaborator) (topic language country : String)
    (max_results : Int) :
    (pyUpper topic ∉ validTopics →
      get_news_by_topic g topic language country max_results =
        (errEnv invalidTopicMessage, [])) ∧
    (pyUpper topic ∈ validTopics →
      (get_news_by_topic g topic language country max_results).2 =
        [(⟨some language, some country, none, some max_results, none⟩,
          GNewsCall.getNewsByTopic (pyUpper topic))] ∧
      ∀ news,
        g.run ⟨some language, some country, none, some max_results, none⟩
            (GNewsCall.getNewsByTopic (pyUpper topic)) = Except.ok news →
        (get_news_by_topic g topic language country max_results).1 =
          [("status", JVal.s "success"), ("topic", JVal.s (pyUpper topic)),
           ("results", JVal.arr news)]) := by
  refine ⟨fun h => get_news_by_topic_invalid g topic language country max_results h,
    fun h => ⟨get_news_by_topic_trace_valid g topic language country max_results h,
      fun news hn => ?_⟩⟩
  simp [get_news_by_topic, if_pos h, hn]

/-- Witness for C1 at concrete inputs: the invalid topic "SPORTSBALL"
is rejected without invocation, and the valid topic "sports" leads to
exactly one collaborator invocation with "SPORTS". -/
theorem topic_validation_gate_witness :
    get_news_by_topic gOk "SPORTSBALL" "en" "US" 10 = (errEnv invalidTopicMessage, []) ∧
    (get_news_by_topic gOk "sports" "en" "US" 10).2 =
      [(⟨some "en", some "US", none, some 10, none⟩,
        GNewsCall.getNewsByTopic (pyUpper "sports"))] :=
  ⟨(topic_validation_gate gOk "SPORTSBALL" "en" "US" 10).1 (by decide),
   ((topic_validation_gate gOk "sports" "en" "US" 10).2 (by decide)).1⟩

/-- C2 counterexample: a collaborator exception with the empty string
representation (`str(Exception()) == ""`) yields an error envelope
whose message is `""`, so the message is not non-empty as the claim
states. -/
theorem empty_exception_message_cex :
    (search_news gFailEmpty "x" "en" "US" "7d" 10 "").1 =
      [("status", JVal.s "error"), ("message", JVal.s "")] ∧
    ("" : String).isEmpty = true :=
  ⟨rfl, rfl⟩

/-- C2 (amended): for every retrieval tool and every exception raised
by the collaborator call, the tool catches the exception and returns
the error envelope whose message is exactly the exception's string
representation, having invoked the collaborator exactly once (no
retry); the operations are total functions into envelopes, so no
failure propagates. -/
theorem collaborator_failure_caught (g : Collaborator) (e : String)
    (h : ∀ a c, g.run a c = Except.error e)
    (keyword language country period topic location site exclude_websites : String)
    (max_results : Int) (htopic : pyUpper topic ∈ validTopics) :
    search_news g keyword language country period max_results exclude_websites =
      (errEnv e, [(⟨some language, some country, some period, some max_results,
        some (parseExcludeWebsites exclude_websites)⟩, GNewsCall.getNews keyword)]) ∧
    get_top_news g language country max_results =
      (errEnv e, [(⟨some language, some country, none, some max_results, none⟩,
        GNewsCall.getTopNews)]) ∧
    get_news_by_topic g topic language country max_results =
      (errEnv e, [(⟨some language, some country, none, some max_results, none⟩,
        GNewsCall.getNewsByTopic (pyUpper topic))]) ∧
    get_news_by_location g location language country max_results =
      (errEnv e, [(⟨some language, some country, none, some max_results, none⟩,
        GNewsCall.getNewsByLocation location)]) ∧
    get_news_by_site g site language country max_results =
      (errEnv e, [(⟨some language, some country, none, some max_results, none⟩,
        GNewsCall.getNewsBySite site)]) := by
  refine ⟨?_, ?_, ?_, ?_, ?_⟩ <;>
    simp [search_news, get_top_news, get_news_by_topic, get_news_by_location,
      get_news_by_site, if_pos htopic, h]

/-- Witness for C2 at a concrete always-raising collaborator. -/
theorem collaborator_failure_caught_witness :
    search_news gFail "k" "en" "US" "7d" 10 "" =
      (errEnv "boom", [(⟨some "en", some "US", some "7d", some 10, some []⟩,
        GNewsCall.getNews "k")]) ∧
    get_top_news gFail "en" "US" 10 =
      (errEnv "boom", [(⟨some "en", some "US", none, some 10, none⟩,
        GNewsCall.getTopNews)]) ∧
    get_news_by_topic gFail "WORLD" "en" "US" 10 =
      (errEnv "boom", [(⟨some "en", some "US", none, some 10, none⟩,
        GNewsCall.getNewsByTopic (pyUpper "WORLD"))]) ∧
    get_news_by_location gFail "Paris" "en" "US" 10 =
      (errEnv "boom", [(⟨some "en", some "US", none, some 10, none⟩,
        GNewsCall.getNewsByLocation "Paris")]) ∧
    get_news_by_site gFail "cnn.com" "en" "US" 10 =
      (errEnv "boom", [(⟨some "en", some "US", none, some 10, none⟩,
        GNewsCall.getNewsBySite "cnn.com")]) :=
  collaborator_failure_caught gFail "boom" (fun _ _ => rfl)
    "k" "en" "US" "7d" "WORLD" "Paris" "cnn.com" "" 10 (by decide)

/-- C3: the code performs no emptiness validation of the mode-specific
required field: `search_news` with the empty keyword invokes the
collaborator (with keyword `""`) and returns that call's success
envelope, instead of the claimed "missing required field" error
without invocation. -/
theorem empty_keyword_not_validated :
    search_news gOk "" "en" "US" "7d" 10 "" =
      ([("status", JVal.s "success"), ("keyword", JVal.s ""),
        ("results", JVal.arr [])],
       [(⟨some "en", some "US", some "7d", some 10, some []⟩,
         GNewsCall.getNews "")]) := rfl

/-- C4 counterexample: `search_news` called with `max_results = 1000`
configures the collaborator with `max_results = 1000`, outside the
documented 1-100 bound: the out-of-range value is passed through
unchanged. -/
theorem max_results_out_of_range_cex :
    (search_news gOk "k" "en" "US" "7d" 1000 "").2 =
      [(⟨some "en", some "US", some "7d", some 1000, some []⟩,
        GNewsCall.getNews "k")] ∧
    ¬ ((1 : Int) ≤ 1000 ∧ (1000 : Int) ≤ 100) :=
  ⟨rfl, by decide⟩

/-- C4 (amended): every tool call forwards the caller-supplied
`max_results` to the collaborator unchanged; the 1-100 bound is not
enforced (no clamping, no rejection). -/
theorem max_results_forwarded_unchanged (g : Collaborator)
    (keyword topic location site language country period exclude_websites : String)
    (max_results : Int) :
    (search_news g keyword language country period max_results exclude_websites).2.map
        (fun i => i.1.max_results) = [some max_results] ∧
    (get_top_news g language country max_results).2.map
        (fun i => i.1.max_results) = [some max_results] ∧
    ((get_news_by_topic g topic language country max_results).2.all
        (fun i => decide (i.1.max_results = some max_results))) = true ∧
    (get_news_by_location g location language country max_results).2.map
        (fun i => i.1.max_results) = [some max_results] ∧
    (get_news_by_site g site language country max_results).2.map
        (fun i => i.1.max_results) = [some max_results] := by
  refine ⟨?_, ?_, ?_, ?_, ?_⟩
  · rw [search_news_trace]; rfl
  · rw [get_top_news_trace]; rfl
  · by_cases h : pyUpper topic ∈ validTopics
    · rw [get_news_by_topic_trace_valid g topic language country max_results h]
      simp
    · rw [get_news_by_topic_invalid g topic language country max_results h]
      rfl
  · rw [get_news_by_location_trace]; rfl
  · rw [get_news_by_site_trace]; rfl

/-- C5: every call constructs a fresh collaborator instance configured
from its own arguments only: for any two `search_news` calls under the
same collaborator, each call's single collaborator invocation carries
exactly that call's own language, country, period, max_results and
exclusion list, whatever the arguments of the other call are; there is
no shared mutable client state between calls. -/
theorem fresh_client_noninterference (g : Collaborator)
    (k1 k2 l1 l2 c1 c2 p1 p2 ew1 ew2 : String) (m1 m2 : Int) :
    (search_news g k1 l1 c1 p1 m1 ew1).2 =
      [(⟨some l1, some c1, some p1, some m1, some (parseExcludeWebsites ew1)⟩,
        GNewsCall.getNews k1)] ∧
    (search_news g k2 l2 c2 p2 m2 ew2).2 =
      [(⟨some l2, some c2, some p2, some m2, some (parseExcludeWebsites ew2)⟩,
        GNewsCall.getNews k2)] :=
  ⟨search_news_trace g k1 l1 c1 p1 m1 ew1, search_news_trace g k2 l2 c2 p2 m2 ew2⟩

/-- C6: the two parameterless operations take no query parameters,
perform no retrieval invocation, and always return a success envelope
wrapping the collaborator's static supported-value tables; with the
library's tables non-empty, the wrapped tables are non-empty.  The
result depends on nothing but the collaborator's static tables, so it
is independent of any other request's state. -/
theorem static_tables_success (g : Collaborator)
    (hc : g.availableCountries ≠ []) (hl : g.availableLanguages ≠ []) :
    get_available_countries g =
      ([("status", JVal.s "success"),
        ("countries", JVal.table g.availableCountries)], []) ∧
    get_available_languages g =
      ([("status", JVal.s "success"),
        ("languages", JVal.table g.availableLanguages)], []) ∧
    (∃ t, List.lookup "countries" (get_available_countries g).1 =
        some (JVal.table t) ∧ t ≠ []) ∧
    (∃ t, List.lookup "languages" (get_available_languages g).1 =
        some (JVal.table t) ∧ t ≠ []) :=
  ⟨rfl, rfl, ⟨g.availableCountries, rfl, hc⟩, ⟨g.availableLanguages, rfl, hl⟩⟩

/-- Witness for C6 at a concrete collaborator with non-empty tables. -/
theorem static_tables_success_witness :
    get_available_countries gOk =
      ([("status", JVal.s "success"),
        ("countries", JVal.table [("United States", "US")])], []) ∧
    get_available_languages gOk =
      ([("status", JVal.s "success"),
        ("languages", JVal.table [("english", "en")])], []) ∧
    (∃ t, List.lookup "countries" (get_available_countries gOk).1 =
        some (JVal.table t) ∧ t ≠ []) ∧
    (∃ t, List.lookup "languages" (get_available_languages gOk).1 =
        some (JVal.table t) ∧ t ≠ []) :=
  static_tables_success gOk (by decide) (by decide)

/-- C7 counterexample: with the topic "sports" the success envelope's
topic field holds "SPORTS", not the request's "sports": the topic is
not echoed unchanged. -/
theorem topic_echo_uppercased_cex :
    List.lookup "topic" (get_news_by_topic gOk "sports" "en" "US" 10).1 =
      some (JVal.s "SPORTS") ∧ ("SPORTS" : String) ≠ "sports" :=
  ⟨rfl, by decide⟩

/-- C7 (amended): on collaborator success, `search_news`,
`get_news_by_location` and `get_news_by_site` echo the mode's request
field unchanged in the success envelope, while `get_news_by_topic`
echoes the upper-cased topic. -/
theorem request_field_echo (g : Collaborator)
    (keyword topic location site language country period exclude_websites : String)
    (max_results : Int) (news : List Article) :
    (g.run ⟨some language, some country, some period, some max_results,
        some (parseExcludeWebsites exclude_websites)⟩ (GNewsCall.getNews keyword) =
          Except.ok news →
      List.lookup "keyword" (search_news g keyword language country period
        max_results exclude_websites).1 = some (JVal.s keyword)) ∧
    (pyUpper topic ∈ validTopics →
      g.run ⟨some language, some country, none, some max_results, none⟩
          (GNewsCall.getNewsByTopic (pyUpper topic)) = Except.ok news →
      List.lookup "topic" (get_news_by_topic g topic language country max_results).1 =
        some (JVal.s (pyUpper topic))) ∧
    (g.run ⟨some language, some country, none, some max_results, none⟩
        (GNewsCall.getNewsByLocation location) = Except.ok news →
      List.lookup "location" (get_news_by_location g location language country
        max_results).1 = some (JVal.s location)) ∧
    (g.run ⟨some language, some country, none, some max_results, none⟩
        (GNewsCall.getNewsBySite site) = Except.ok news →
      List.lookup "site" (get_news_by_site g site language country max_results).1 =
        some (JVal.s site)) := by
  refine ⟨fun h => ?_, fun ht h => ?_, fun h => ?_, fun h => ?_⟩
  · simp [search_news, h]; rfl
  · simp [get_news_by_topic, if_pos ht, h]; rfl
  · simp [get_news_by_location, h]; rfl
  · simp [get_news_by_site, h]; rfl

/-- Witness for C7 at concrete successful calls. -/
theorem request_field_echo_witness :
    List.lookup "keyword" (search_news gOk "bitcoin" "en" "US" "7d" 10 "").1 =
      some (JVal.s "bitcoin") ∧
    List.lookup "topic" (get_news_by_topic gOk "health" "en" "US" 10).1 =
      some (JVal.s (pyUpper "health")) ∧
    List.lookup "location" (get_news_by_location gOk "Paris" "en" "US" 10).1 =
      some (JVal.s "Paris") ∧
    List.lookup "site" (get_news_by_site gOk "cnn.com" "en" "US" 10).1 =
      some (JVal.s "cnn.com") :=
  have h := request_field_echo gOk "bitcoin" "health" "Paris" "cnn.com"
    "en" "US" "7d" "" 10 []
  ⟨h.1 rfl, h.2.1 (by decide) rfl, h.2.2.1 rfl, h.2.2.2 rfl⟩

/-- Holds of an envelope when its status field is exactly "success" or
"error", a results / countries / languages field occurs only with
status "success", and a message field occurs only with status
"error". -/
def envelopeShapeOk (env : Envelope) : Bool :=
  (decide (List.lookup "status" env = some (JVal.s "success")) ||
   decide (List.lookup "status" env = some (JVal.s "error"))) &&
  (!(List.lookup "results" env).isSome && !(List.lookup "countries" env).isSome &&
     !(List.lookup "languages" env).isSome ||
   decide (List.lookup "status" env = some (JVal.s "success"))) &&
  (!(List.lookup "message" env).isSome ||
   decide (List.lookup "status" env = some (JVal.s "error")))

/-- C8: every envelope any of the seven tools can return has status
exactly "success" or "error"; its results (or countries / languages
table) field appears only in success envelopes, its message field
appears only in error envelopes, and no envelope combines results with
an error status. -/
theorem envelope_shape_invariant (g : Collaborator)
    (keyword topic location site language country period exclude_websites : String)
    (max_results : Int) :
    envelopeShapeOk (search_news g keyword language country period max_results
      exclude_websites).1 = true ∧
    envelopeShapeOk (get_top_news g language country max_results).1 = true ∧
    envelopeShapeOk (get_news_by_topic g topic language country max_results).1 = true ∧
    envelopeShapeOk (get_news_by_location g location language country max_results).1
      = true ∧
    envelopeShapeOk (get_news_by_site g site language country max_results).1 = true ∧
    envelopeShapeOk (get_available_countries g).1 = true ∧
    envelopeShapeOk (get_available_languages g).1 = true := by
  refine ⟨?_, ?_, ?_, ?_, ?_, rfl, rfl⟩
  · simp only [search_news]
    split <;> rfl
  · simp only [get_top_news]
    split <;> rfl
  · simp only [get_news_by_topic]
    split
    · split <;> rfl
    · rfl
  · simp only [get_news_by_location]
    split <;> rfl
  · simp only [get_news_by_site]
    split <;> rfl

/-- The exclusion-list computation as C9 states it: split the string on
commas, strip whitespace from each piece, drop the empty pieces. -/
def claimedExcludeList (exclude_websites : String) : List String :=
  ((pySplit exclude_websites).map pyStrip).filter (fun x => x != "")

/-- Filtering on the stripped piece being non-empty and then stripping
is the same as stripping first and dropping empty results. -/
theorem filter_strip_map_comm (l : List String) :
    (l.filter (fun x => pyStrip x != "")).map pyStrip =
      (l.map pyStrip).filter (fun x => x != "") := by
  induction l with
  | nil => rfl
  | cons a t ih =>
    by_cases h : pyStrip a = ""
    · simp [List.filter_cons, h, ih]
    · simp [List.filter_cons, h, ih]

/-- The code's guarded comprehension equals the claim's
split-strip-drop description on every input (the guard `if
exclude_websites else []` agrees with it at the empty string). -/
theorem parse_eq_claimed (ew : String) :
    parseExcludeWebsites ew = claimedExcludeList ew := by
  by_cases h : ew = ""
  · subst h; rfl
  · simp only [parseExcludeWebsites, claimedExcludeList, if_neg h]
    exact filter_strip_map_comm (pySplit ew)

/-- C9: the exclusion list `search_news` configures the collaborator
with is exactly the non-empty whitespace-stripped pieces of the
comma-split `exclude_websites` string, including the claim's concrete
examples. -/
theorem exclude_websites_parsing (g : Collaborator)
    (keyword language country period exclude_websites : String) (max_results : Int) :
    (search_news g keyword language country period max_results exclude_websites).2.map
        (fun i => i.1.exclude_websites) =
      [some (claimedExcludeList exclude_websites)] ∧
    parseExcludeWebsites "a.com, ,b.com" = ["a.com", "b.com"] ∧
    parseExcludeWebsites "" = [] := by
  refine ⟨?_, by decide, rfl⟩
  rw [search_news_trace]
  simp [parse_eq_claimed]

/-- C10: only `search_news` forwards a period and an exclusion list to
the collaborator's constructor; every invocation made by the other
four retrieval operations is configured with only language, country
and max_results (the period and exclude_websites keyword arguments are
absent), so no supplied period can influence those four operations. -/
theorem period_exclude_frame (g : Collaborator)
    (keyword topic location site language country period exclude_websites : String)
    (max_results : Int) :
    (search_news g keyword language country period max_results exclude_websites).2.map
        (fun i => i.1) =
      [⟨some language, some country, some period, some max_results,
        some (parseExcludeWebsites exclude_websites)⟩] ∧
    (get_top_news g language country max_results).2.map (fun i => i.1) =
      [⟨some language, some country, none, some max_results, none⟩] ∧
    ((get_news_by_topic g topic language country max_results).2.all
        (fun i => decide (i.1.period = none ∧ i.1.exclude_websites = none))) = true ∧
    (get_news_by_location g location language country max_results).2.map
        (fun i => i.1) =
      [⟨some language, some country, none, some max_results, none⟩] ∧
    (get_news_by_site g site language country max_results).2.map (fun i => i.1) =
      [⟨some language, some country, none, some max_results, none⟩] := by
  refine ⟨?_, ?_, ?_, ?_, ?_⟩
  · rw [search_news_trace]; rfl
  · rw [get_top_news_trace]; rfl
  · by_cases h : pyUpper topic ∈ validTopics
    · rw [get_news_by_topic_trace_valid g topic language country max_results h]; rfl
    · rw [get_news_by_topic_invalid g topic language country max_results h]; rfl
  · rw [get_news_by_location_trace]; rfl
  · rw [get_news_by_site_trace]; rfl

end GNewsMCP
